import Mathlib

/-
Shallow embedding of the two data-seeding scripts of the Aura service-desk
repository:

  * aura-backend/generate_enhanced_tickets.py
  * aura-backend/populate_knowledge_base.py

Python's `random` module is modelled by explicit draw parameters: every call
`random.random()` / `random.uniform(a, b)` / `random.randint(lo, hi)` /
`random.choice(seq)` consumes one rational draw `t` with `0 ≤ t ≤ 1` and is
interpreted by the primitives `uniformQ`, `randintQ`, `chooseFrom` below, which
realise exactly the documented contract of the corresponding Python function
(a value in `[a,b]`, an integer in `[lo,hi]`, an element of the sequence).
The outcome of `random.shuffle` on the three distribution lists is modelled by
passing the shuffled lists as parameters (a genuine run supplies some
permutation of the expanded distribution lists).

Timestamps (`datetime`) are modelled as rational numbers of hours since an
arbitrary epoch; `timedelta(days, hours, minutes)` becomes
`days*24 + hours + minutes/60` and `datetime.replace(hour=h)` becomes
`replaceHour`, which rewrites the hour-of-day digit of the timestamp while
keeping the day and the sub-hour remainder.

MongoDB documents are modelled as Lean structures in which a field that the
script adds only conditionally (`assigned_to`, `resolution`) is an `Option`
(`none` = field absent from the document).  Free-text fields that no part of
the scripts ever reads back or branches on (ticket/article body text, scenario
keyword lists, the text of the single `ai_suggestions` entry) are omitted from
the embedding; every field that any control-flow decision or claim touches is
kept.
-/

/-- Enumeration `shared.models.base.Status` (values used by the scripts). -/
inductive Status where
  | OPEN
  | IN_PROGRESS
  | RESOLVED
  | CLOSED
deriving DecidableEq

/-- Enumeration `shared.models.base.Priority` (values used by the scripts). -/
inductive Priority where
  | CRITICAL
  | HIGH
  | MEDIUM
  | LOW
deriving DecidableEq

/-- Constant `TOTAL_TICKETS = 50` of generate_enhanced_tickets.py. -/
def TOTAL_TICKETS : Nat := 50

/-- Dict `STATUS_DISTRIBUTION` of generate_enhanced_tickets.py, as an
association list in insertion order. -/
def STATUS_DISTRIBUTION : List (Status × Nat) :=
  [(Status.OPEN, 18), (Status.IN_PROGRESS, 15), (Status.RESOLVED, 12), (Status.CLOSED, 5)]

/-- Dict `PRIORITY_DISTRIBUTION` of generate_enhanced_tickets.py. -/
def PRIORITY_DISTRIBUTION : List (Priority × Nat) :=
  [(Priority.CRITICAL, 3), (Priority.HIGH, 12), (Priority.MEDIUM, 25), (Priority.LOW, 10)]

/-- Dict `CATEGORY_DISTRIBUTION` of generate_enhanced_tickets.py. -/
def CATEGORY_DISTRIBUTION : List (String × Nat) :=
  [("Software", 15), ("Hardware", 12), ("Network", 10), ("Email", 8), ("Access", 3), ("Other", 2)]

/-- List `DEPARTMENTS` of generate_enhanced_tickets.py. -/
def DEPARTMENTS : List String :=
  ["Engineering", "Marketing", "Sales", "HR", "Finance", "Operations",
   "Customer Support", "IT", "Legal", "Product Management", "Executive",
   "Quality Assurance", "Business Development", "Research & Development"]

/-- List `USER_NAMES` of generate_enhanced_tickets.py. -/
def USER_NAMES : List String :=
  ["Sarah Johnson", "Michael Chen", "Emily Davis", "David Wilson", "Lisa Anderson",
   "Robert Garcia", "Jennifer Martinez", "William Brown", "Jessica Taylor", "James Lee",
   "Amanda White", "Christopher Harris", "Michelle Clark", "Daniel Lewis", "Rebecca Walker",
   "Kevin Hall", "Laura Allen", "Steven Young", "Karen King", "Thomas Wright",
   "Nancy Lopez", "Mark Hill", "Sandra Scott", "Andrew Green", "Rachel Adams",
   "Brian Miller", "Ashley Moore", "Ryan Taylor", "Stephanie Wilson", "Justin Clark",
   "Melissa Rodriguez", "Jonathan Davis", "Christina Martinez", "Matthew Anderson",
   "Samantha Thompson", "Nicholas White", "Kimberly Jackson", "Anthony Brown",
   "Elizabeth Johnson", "Joshua Garcia", "Heather Williams", "Alexander Jones",
   "Megan Smith", "Tyler Davis", "Brittany Miller", "Zachary Wilson", "Danielle Moore",
   "Brandon Taylor", "Amber Anderson", "Jordan Thomas", "Kayla Jackson"]

/-- Entry of the list `AGENTS` of generate_enhanced_tickets.py: a dict with
keys `name`, `skills`, `workload`. -/
structure Agent where
  name : String
  skills : List String
  workload : Nat
deriving DecidableEq

/-- List `AGENTS` of generate_enhanced_tickets.py (initial workload 0). -/
def AGENTS : List Agent :=
  [⟨"Sarah Wilson", ["Network", "Hardware", "Security"], 0⟩,
   ⟨"Mike Chen", ["Software", "Email", "Access"], 0⟩,
   ⟨"Emma Rodriguez", ["Access", "Security", "Other"], 0⟩,
   ⟨"David Kim", ["Hardware", "Software", "Network"], 0⟩,
   ⟨"Lisa Anderson", ["Email", "Software", "Other"], 0⟩,
   ⟨"Alex Thompson", ["Network", "Security", "Hardware"], 0⟩]

/-- Entry of `ENHANCED_TICKET_SCENARIOS` of generate_enhanced_tickets.py.
The `description` and `keywords` values of each scenario dict are free text
that the generator copies verbatim or drops; they are omitted here. -/
structure TicketScenario where
  title : String
  category : String
  priority : Priority
deriving DecidableEq

/-- List `ENHANCED_TICKET_SCENARIOS` of generate_enhanced_tickets.py:
47 predefined scenarios, in source order. -/
def ENHANCED_TICKET_SCENARIOS : List TicketScenario :=
  [⟨"Complete email server outage - all users affected", "Email", Priority.CRITICAL⟩,
   ⟨"Network infrastructure failure - entire building offline", "Network", Priority.CRITICAL⟩,
   ⟨"Security breach detected - immediate action required", "Other", Priority.CRITICAL⟩,
   ⟨"CEO laptop completely non-functional before board meeting", "Hardware", Priority.HIGH⟩,
   ⟨"Sales CRM system down during quarter-end", "Software", Priority.HIGH⟩,
   ⟨"VPN server overloaded - remote workers cannot connect", "Network", Priority.HIGH⟩,
   ⟨"Payroll system error before payday", "Software", Priority.HIGH⟩,
   ⟨"Main file server crashed - project data inaccessible", "Hardware", Priority.HIGH⟩,
   ⟨"Email security filter blocking legitimate messages", "Email", Priority.HIGH⟩,
   ⟨"Database server running out of disk space", "Other", Priority.HIGH⟩,
   ⟨"Backup system failure discovered during restore test", "Other", Priority.HIGH⟩,
   ⟨"Active Directory server authentication issues", "Access", Priority.HIGH⟩,
   ⟨"Laptop screen flickering intermittently during presentations", "Hardware", Priority.MEDIUM⟩,
   ⟨"Microsoft Excel crashes when opening large spreadsheets", "Software", Priority.MEDIUM⟩,
   ⟨"WiFi connection drops every 30 minutes in conference room", "Network", Priority.MEDIUM⟩,
   ⟨"Outlook email synchronization delays with mobile device", "Email", Priority.MEDIUM⟩,
   ⟨"Request access to new project SharePoint site", "Access", Priority.MEDIUM⟩,
   ⟨"Printer queue stuck with multiple jobs pending", "Hardware", Priority.MEDIUM⟩,
   ⟨"Teams application freezes during screen sharing", "Software", Priority.MEDIUM⟩,
   ⟨"VPN connection very slow affecting file transfers", "Network", Priority.MEDIUM⟩,
   ⟨"Email signature not updating across all devices", "Email", Priority.MEDIUM⟩,
   ⟨"Cannot edit shared documents in OneDrive", "Access", Priority.MEDIUM⟩,
   ⟨"Computer running slowly after Windows update", "Software", Priority.MEDIUM⟩,
   ⟨"External monitor not detected via USB-C dock", "Hardware", Priority.MEDIUM⟩,
   ⟨"Internet browser crashes when accessing specific websites", "Software", Priority.MEDIUM⟩,
   ⟨"Shared network drive mapping fails after computer restart", "Network", Priority.MEDIUM⟩,
   ⟨"Email attachments fail to download in web browser", "Email", Priority.MEDIUM⟩,
   ⟨"Need access to financial reporting system for new role", "Access", Priority.MEDIUM⟩,
   ⟨"Keyboard keys sticking affecting typing speed", "Hardware", Priority.MEDIUM⟩,
   ⟨"Adobe Creative Suite license expired need renewal", "Software", Priority.MEDIUM⟩,
   ⟨"WiFi password not working for guest network", "Network", Priority.MEDIUM⟩,
   ⟨"Spam emails bypassing security filter", "Email", Priority.MEDIUM⟩,
   ⟨"Cannot access HR portal to update personal information", "Access", Priority.MEDIUM⟩,
   ⟨"Webcam not working for video conferences", "Hardware", Priority.MEDIUM⟩,
   ⟨"PowerPoint presentations corrupted after auto-save", "Software", Priority.MEDIUM⟩,
   ⟨"Network file transfer speeds extremely slow", "Network", Priority.MEDIUM⟩,
   ⟨"Email rules not working after system update", "Email", Priority.MEDIUM⟩,
   ⟨"Request installation of additional software for productivity", "Software", Priority.LOW⟩,
   ⟨"Mouse scroll wheel occasionally unresponsive", "Hardware", Priority.LOW⟩,
   ⟨"Desktop wallpaper resets to default after restart", "Software", Priority.LOW⟩,
   ⟨"Request for ergonomic keyboard for comfort", "Hardware", Priority.LOW⟩,
   ⟨"WiFi signal weak in corner office location", "Network", Priority.LOW⟩,
   ⟨"Email notification sound too quiet to hear", "Email", Priority.LOW⟩,
   ⟨"Request access to optional training portal", "Access", Priority.LOW⟩,
   ⟨"Computer fan noise slightly louder than usual", "Hardware", Priority.LOW⟩,
   ⟨"Suggestion to update company screensaver", "Software", Priority.LOW⟩,
   ⟨"Request for dual monitor setup for better workflow", "Hardware", Priority.LOW⟩]

/-- List `base_scenarios` used by the loop of generate_enhanced_tickets.py for
ticket indices beyond the predefined scenario list. -/
def BASE_SCENARIOS : List String :=
  ["Software installation request for team productivity",
   "Hardware replacement needed for aging equipment",
   "Network connectivity issues in specific office area",
   "Email configuration problem for new employee",
   "Access request for departmental shared resources"]

/-- List `resolutions` defined inline in generate_enhanced_tickets.py for
resolved/closed tickets. -/
def RESOLUTIONS : List String :=
  ["Issue resolved by restarting the service and updating configuration settings.",
   "Problem fixed by reinstalling the application and clearing user profile cache.",
   "Resolved by replacing faulty hardware component and testing functionality.",
   "Fixed by updating network drivers and adjusting firewall settings.",
   "Issue resolved through user training and process documentation update.",
   "Problem solved by applying security patches and system updates.",
   "Resolved by reconfiguring email client settings and testing connectivity.",
   "Fixed by clearing browser cache and updating application to latest version.",
   "Issue resolved by adjusting user permissions and access controls.",
   "Problem fixed by optimizing system performance and removing unnecessary software."]

/-- Value of `list(range(0, 8)) + list(range(19, 24))`: the off-business-hours
pool that generate_enhanced_tickets.py draws from with probability 20%. -/
def OFF_HOURS : List ℤ :=
  [0, 1, 2, 3, 4, 5, 6, 7, 19, 20, 21, 22, 23]

/-- Predicate for a well-formed random draw: a value of the unit interval, as
produced by Python's `random.random()`. -/
def unitI (t : ℚ) : Prop := 0 ≤ t ∧ t ≤ 1

/-- Model of `random.uniform(a, b)`: maps the unit draw `t` affinely onto the
interval `[a, b]`. -/
def uniformQ (a b t : ℚ) : ℚ := a + t * (b - a)

/-- Model of `random.randint(lo, hi)`: maps the unit draw `t` onto an integer
of `[lo, hi]` (floor of the scaled draw, clamped at the top endpoint). -/
def randintQ (lo hi : ℤ) (t : ℚ) : ℤ :=
  lo + min ⌊t * ((hi - lo + 1 : ℤ) : ℚ)⌋ (hi - lo)

/-- Model of `random.choice(seq)`: indexes the sequence at a uniform integer
draw of `[0, len - 1]`. -/
def chooseFrom {α : Type} (l : List α) (dflt : α) (t : ℚ) : α :=
  l.getD (randintQ 0 ((l.length : ℤ) - 1) t).toNat dflt

/-- Timestamps are rational hours since an arbitrary epoch.  `hourOfDay`
extracts the hour digit of the day, as `datetime.hour` does. -/
def hourOfDay (t : ℚ) : ℤ := ⌊t⌋ % 24

/-- Model of `datetime.replace(hour=h)`: keeps the day and the sub-hour
remainder of `t` and replaces the hour-of-day digit by `h`. -/
def replaceHour (t : ℚ) (h : ℤ) : ℚ := t - ((hourOfDay t : ℤ) : ℚ) + (h : ℚ)

/-- Per-ticket random draws consumed by one iteration of the generation loop
of generate_enhanced_tickets.py, one unit draw per `random.*` call site,
in source order. -/
structure Draws where
  baseScenarioT : ℚ
  userNameT : ℚ
  departmentT : ℚ
  userIdT : ℚ
  daysAgoT : ℚ
  coinT : ℚ
  bizHourT : ℚ
  offHourT : ℚ
  jitterHoursT : ℚ
  jitterMinutesT : ℚ
  confidenceT : ℚ
  resolutionT : ℚ
  resolutionHoursT : ℚ

/-- Well-formedness of a draw record: every component is a unit-interval
value, as Python's `random` guarantees for `random.random()` and as the
contracts of `uniform`, `randint` and `choice` require. -/
structure Draws.WF (d : Draws) : Prop where
  baseScenarioT : unitI d.baseScenarioT
  userNameT : unitI d.userNameT
  departmentT : unitI d.departmentT
  userIdT : unitI d.userIdT
  daysAgoT : unitI d.daysAgoT
  coinT : unitI d.coinT
  bizHourT : unitI d.bizHourT
  offHourT : unitI d.offHourT
  jitterHoursT : unitI d.jitterHoursT
  jitterMinutesT : unitI d.jitterMinutesT
  confidenceT : unitI d.confidenceT
  resolutionT : unitI d.resolutionT
  resolutionHoursT : unitI d.resolutionHoursT

/-- Draw record with every component 0, a legitimate well-formed draw. -/
def zeroDraws : Draws := ⟨0, 0, 0, 0, 0, 0, 0, 0, 0, 0, 0, 0, 0⟩

/-- Agent placeholder used as the default of list indexing in the embedding
(the scripts never index out of range at these sites). -/
def dummyAgent : Agent := ⟨"", [], 0⟩

/-- Eligibility test of the skill-matching pass of generate_enhanced_tickets.py:
`category in agent["skills"] and agent["workload"] < 8`. -/
def eligibleAgent (cat : String) (a : Agent) : Prop :=
  cat ∈ a.skills ∧ a.workload < 8

instance (cat : String) (a : Agent) : Decidable (eligibleAgent cat a) :=
  inferInstanceAs (Decidable (cat ∈ a.skills ∧ a.workload < 8))

/-- First pass of the agent-assignment code: index of the first agent (pool
order) whose skills contain the category and whose workload is below 8,
mirroring the `for agent in AGENTS: ... break` loop. -/
def findBestAgentIdx (cat : String) : List Agent → Option Nat
  | [] => none
  | a :: rest =>
    if eligibleAgent cat a then some 0
    else (findBestAgentIdx cat rest).map (· + 1)

/-- Fallback of the agent-assignment code,
`min(AGENTS, key=lambda x: x["workload"])`: index of the first agent of
minimal workload (Python's `min` keeps the leftmost minimum). -/
def leastLoadedIdx : List Agent → Nat
  | [] => 0
  | [_] => 0
  | a :: b :: rest =>
    let j := leastLoadedIdx (b :: rest)
    if ((b :: rest).getD j dummyAgent).workload < a.workload then j + 1 else 0

/-- Agent chosen for a non-open ticket: the skill-matching pass, with the
least-loaded fallback when it finds nobody. -/
def assignAgent (agents : List Agent) (cat : String) : Nat :=
  match findBestAgentIdx cat agents with
  | some j => j
  | none => leastLoadedIdx agents

/-- Effect of `best_agent["workload"] += 1` on the pool: increments the
workload of the agent at index `j`. -/
def bumpWorkload : List Agent → Nat → List Agent
  | [], _ => []
  | a :: rest, 0 => { a with workload := a.workload + 1 } :: rest
  | a :: rest, j + 1 => a :: bumpWorkload rest j

/-- Category of ticket `i`: the scenario category for `i` below the scenario
list length, otherwise `category_list[i] if i < len(category_list) else "Other"`. -/
def ticketCategory (catList : List String) (i : Nat) : String :=
  match ENHANCED_TICKET_SCENARIOS.get? i with
  | some s => s.category
  | none => catList.getD i "Other"

/-- Priority of ticket `i`: scenario priority below the scenario list length,
otherwise `priority_list[i] if i < len(priority_list) else Priority.MEDIUM`. -/
def ticketPriority (priorityList : List Priority) (i : Nat) : Priority :=
  match ENHANCED_TICKET_SCENARIOS.get? i with
  | some s => s.priority
  | none => priorityList.getD i Priority.MEDIUM

/-- Title of ticket `i`: scenario title below the scenario list length,
otherwise `f"{random.choice(base_scenarios)} #{i+1}"`. -/
def ticketTitle (i : Nat) (d : Draws) : String :=
  match ENHANCED_TICKET_SCENARIOS.get? i with
  | some s => s.title
  | none => chooseFrom BASE_SCENARIOS "" d.baseScenarioT ++ " #" ++ toString (i + 1)

/-- Status of ticket `i`: `status_list[i] if i < len(status_list) else Status.OPEN`. -/
def ticketStatus (statusList : List Status) (i : Nat) : Status :=
  statusList.getD i Status.OPEN

/-- Email synthesis of generate_enhanced_tickets.py: lower-case the user name,
split on blanks, join the first two parts with a dot (or use the single part)
and append the company domain.  (On an empty split Python would raise an
IndexError; the fixed name pool always has two parts.) -/
def emailFromName (userName : String) : String :=
  match userName.toLower.splitOn " " with
  | p0 :: p1 :: _ => p0 ++ "." ++ p1 ++ "@company.com"
  | [p0] => p0 ++ "@company.com"
  | [] => "@company.com"

/-- Value of `days_ago` for a status, per the status-dependent `random.randint`
ranges of generate_enhanced_tickets.py. -/
def daysAgoFor (status : Status) (t : ℚ) : ℤ :=
  match status with
  | Status.CLOSED => randintQ 7 60 t
  | Status.RESOLVED => randintQ 1 14 t
  | Status.IN_PROGRESS => randintQ 0 7 t
  | Status.OPEN => randintQ 0 3 t

/-- Value of `hour`: `random.randint(8, 18)` when `random.random() < 0.8`,
otherwise `random.choice(list(range(0, 8)) + list(range(19, 24)))`. -/
def hourFor (d : Draws) : ℤ :=
  if d.coinT < 4/5 then randintQ 8 18 d.bizHourT
  else chooseFrom OFF_HOURS 0 d.offHourT

/-- Value of `created_time`:
`datetime.utcnow() - timedelta(days=days_ago, hours=randint(0,23), minutes=randint(0,59))`
followed by `.replace(hour=hour)`. -/
def createdTimeFor (now : ℚ) (status : Status) (d : Draws) : ℚ :=
  replaceHour
    (now - (((daysAgoFor status d.daysAgoT : ℤ) : ℚ) * 24
            + ((randintQ 0 23 d.jitterHoursT : ℤ) : ℚ)
            + ((randintQ 0 59 d.jitterMinutesT : ℤ) : ℚ) / 60))
    (hourFor d)

/-- Value of `resolution_hours`, drawn by `random.uniform` from the
priority-dependent interval of generate_enhanced_tickets.py. -/
def resolutionHoursFor (p : Priority) (t : ℚ) : ℚ :=
  match p with
  | Priority.CRITICAL => uniformQ (1/2) 4 t
  | Priority.HIGH => uniformQ 2 24 t
  | Priority.MEDIUM => uniformQ 4 72 t
  | Priority.LOW => uniformQ 24 168 t

/-- Ticket document handed to `tickets_repo.create`.  A field the script only
adds on some paths (`assigned_to`, `resolution`) is an `Option`, `none`
standing for an absent field; `created_at`/`updated_at` are likewise `Option`
so that their presence in the document is expressible.  The `description`
text, the empty `attachments` list and the text of the single `ai_suggestions`
entry are free text of fixed shape, omitted; the confidence number of that
entry is kept. -/
structure TicketDoc where
  title : String
  category : String
  priority : Priority
  status : Status
  user_id : String
  user_email : String
  user_name : String
  department : String
  aiConfidence : ℚ
  assigned_to : Option String
  resolution : Option String
  created_at : Option ℚ
  updated_at : Option ℚ

/-- One iteration of the generation loop of generate_enhanced_tickets.py:
builds the document for ticket `i` from the current agent pool and the
ticket's random draws, and returns it with the updated agent pool. -/
def mkTicketDoc (now : ℚ) (catList : List String) (statusList : List Status)
    (priorityList : List Priority) (agents : List Agent) (i : Nat) (d : Draws) :
    TicketDoc × List Agent :=
  ({ title := ticketTitle i d
     category := ticketCategory catList i
     priority := ticketPriority priorityList i
     status := ticketStatus statusList i
     user_id := "USR" ++ toString (randintQ 10000 99999 d.userIdT)
     user_email := emailFromName (chooseFrom USER_NAMES "" d.userNameT)
     user_name := chooseFrom USER_NAMES "" d.userNameT
     department := chooseFrom DEPARTMENTS "" d.departmentT
     aiConfidence := uniformQ (85/100) (98/100) d.confidenceT
     assigned_to :=
       if ticketStatus statusList i = Status.OPEN then none
       else some ((agents.getD (assignAgent agents (ticketCategory catList i)) dummyAgent).name)
     resolution :=
       if ticketStatus statusList i = Status.OPEN then none
       else if ticketStatus statusList i = Status.RESOLVED ∨ ticketStatus statusList i = Status.CLOSED then
         some (chooseFrom RESOLUTIONS "" d.resolutionT)
       else none
     created_at := some (createdTimeFor now (ticketStatus statusList i) d)
     updated_at :=
       if ticketStatus statusList i = Status.OPEN then
         some (createdTimeFor now (ticketStatus statusList i) d)
       else if ticketStatus statusList i = Status.RESOLVED ∨ ticketStatus statusList i = Status.CLOSED then
         some (createdTimeFor now (ticketStatus statusList i) d
               + resolutionHoursFor (ticketPriority priorityList i) d.resolutionHoursT)
       else some (createdTimeFor now (ticketStatus statusList i) d) },
   if ticketStatus statusList i = Status.OPEN then agents
   else bumpWorkload agents (assignAgent agents (ticketCategory catList i)))

/-- Generation loop over the ticket indices, threading the mutable agent pool
exactly as the script's shared `AGENTS` state is threaded; one created
document per index. -/
def genTicketsAux (now : ℚ) (catList : List String) (statusList : List Status)
    (priorityList : List Priority) (draws : Nat → Draws) :
    List Nat → List Agent → List TicketDoc
  | [], _ => []
  | i :: rest, agents =>
    (mkTicketDoc now catList statusList priorityList agents i (draws i)).1 ::
      genTicketsAux now catList statusList priorityList draws rest
        (mkTicketDoc now catList statusList priorityList agents i (draws i)).2

/-- Result of a run of `generate_enhanced_tickets`: the documents passed to
`tickets_repo.create` (one create call per document, in order) and the
function's return value (`existing_count` on the skip path, `tickets_created`
otherwise). -/
structure GenResult where
  createdDocs : List TicketDoc
  returnValue : Nat

/-- Function `generate_enhanced_tickets` of generate_enhanced_tickets.py.
`existingCount` is the value the pre-check reported; `catList`, `statusList`
and `priorityList` are the three shuffled distribution lists (a genuine run
supplies permutations of the expanded distributions); `draws i` are the random
draws of iteration `i`. -/
def generate_enhanced_tickets (existingCount : Nat) (now : ℚ)
    (catList : List String) (statusList : List Status) (priorityList : List Priority)
    (draws : Nat → Draws) : GenResult :=
  if existingCount ≥ 50 then ⟨[], existingCount⟩
  else
    ⟨genTicketsAux now catList statusList priorityList draws (List.range TOTAL_TICKETS) AGENTS,
     (genTicketsAux now catList statusList priorityList draws (List.range TOTAL_TICKETS) AGENTS).length⟩

/-- Function `check_existing_tickets_count` of generate_enhanced_tickets.py.
Its body (database init plus `tickets_repo.count({})`) either yields a count
or raises; the whole body sits in a `try` whose `except` prints a warning and
returns 0.  The first component is the returned count, the second the printed
warning lines. -/
def check_existing_tickets_count (countAttempt : Except String Nat) : Nat × List String :=
  match countAttempt with
  | Except.ok n => (n, [])
  | Except.error msg => (0, ["⚠️ Error checking existing tickets: " ++ msg])

/-- Entry of `SAMPLE_ARTICLES` of populate_knowledge_base.py.  The `content`
value (a long markdown body the script copies verbatim) is omitted free
text. -/
structure Article where
  title : String
  category : String
  tags : List String
  author : String
deriving DecidableEq

/-- List `SAMPLE_ARTICLES` of populate_knowledge_base.py: 12 articles, in
source order. -/
def SAMPLE_ARTICLES : List Article :=
  [⟨"How to Reset Your Windows Password", "Account Management",
    ["password", "reset", "windows", "login", "security"], "IT Support Team"⟩,
   ⟨"VPN Connection Setup Guide", "Network",
    ["vpn", "remote", "connection", "security", "setup"], "Network Team"⟩,
   ⟨"Email Configuration for Outlook", "Email",
    ["outlook", "email", "configuration", "imap", "smtp"], "IT Support Team"⟩,
   ⟨"Printer Setup and Troubleshooting", "Hardware",
    ["printer", "setup", "troubleshooting", "network", "drivers"], "IT Support Team"⟩,
   ⟨"Software Installation Requests", "Software",
    ["software", "installation", "approval", "security", "licensing"], "IT Security Team"⟩,
   ⟨"Wi-Fi Connection Troubleshooting", "Network",
    ["wifi", "wireless", "connection", "troubleshooting", "network"], "Network Team"⟩,
   ⟨"Multi-Factor Authentication (MFA) Setup", "Security",
    ["mfa", "authentication", "security", "microsoft", "2fa"], "IT Security Team"⟩,
   ⟨"File Sharing and OneDrive Usage", "Software",
    ["onedrive", "sharepoint", "file sharing", "collaboration", "cloud"], "IT Support Team"⟩,
   ⟨"Advanced Password Recovery Methods", "Account Management",
    ["password", "recovery", "advanced", "troubleshooting", "security"], "IT Security Team"⟩,
   ⟨"VPN Troubleshooting Checklist", "Network",
    ["vpn", "troubleshooting", "connectivity", "network", "remote"], "Network Team"⟩,
   ⟨"Email Synchronization Best Practices", "Email",
    ["email", "synchronization", "outlook", "exchange", "mobile"], "IT Support Team"⟩,
   ⟨"Printer Driver Installation Guide", "Hardware",
    ["printer", "driver", "installation", "troubleshooting", "network"], "IT Support Team"⟩]

/-- Knowledge-base document stored by `kb_repo.create`: the article fields
plus the zero-initialised counters and the insertion timestamps. -/
structure ArticleDoc where
  title : String
  category : String
  tags : List String
  author : String
  views : Nat
  helpful_votes : Nat
  unhelpful_votes : Nat
  created_at : ℚ
  updated_at : ℚ
deriving DecidableEq

/-- Document built for an article by populate_knowledge_base.py:
`{**article_data, "views": 0, "helpful_votes": 0, "unhelpful_votes": 0,
"created_at": utcnow, "updated_at": utcnow}`. -/
def mkArticleDoc (now : ℚ) (a : Article) : ArticleDoc :=
  ⟨a.title, a.category, a.tags, a.author, 0, 0, 0, now, now⟩

/-- Model of `kb_repo.find_one({"title": t})`: the first stored document whose
title equals `t`, if any. -/
def findOneByTitle (store : List ArticleDoc) (t : String) : Option ArticleDoc :=
  store.find? (fun doc => doc.title == t)

/-- Article loop of populate_knowledge_base.py: for each article, skip it when
a document with its title exists, otherwise create its document (appending to
the collection); also counts the create calls. -/
def addArticles (now : ℚ) : List Article → List ArticleDoc → Nat → List ArticleDoc × Nat
  | [], store, creates => (store, creates)
  | a :: rest, store, creates =>
    match findOneByTitle store a.title with
    | some _ => addArticles now rest store creates
    | none => addArticles now rest (store ++ [mkArticleDoc now a]) (creates + 1)

/-- Result of a run of `populate_knowledge_base`: the final collection state,
the number of create calls, and the existing count the run reported. -/
structure KBResult where
  store : List ArticleDoc
  createCalls : Nat
  reportedExisting : Nat

/-- Function `populate_knowledge_base` of populate_knowledge_base.py: reports
the existing count, skips generation entirely when it already reaches the
sample size, and otherwise runs the per-article loop. -/
def populate_knowledge_base (now : ℚ) (store : List ArticleDoc) : KBResult :=
  let existing := store.length
  if existing ≥ SAMPLE_ARTICLES.length then ⟨store, 0, existing⟩
  else
    ⟨(addArticles now SAMPLE_ARTICLES store 0).1, (addArticles now SAMPLE_ARTICLES store 0).2,
     existing⟩

/-- Expansion step shared by the three `*_list` constructions of
generate_enhanced_tickets.py: each label of the distribution is repeated by
its count and the runs are concatenated (the `for ...: list.extend([x] * count)`
loops); `random.shuffle` then permutes the result. -/
def expandDistribution {α : Type} (dist : List (α × Nat)) : List α :=
  dist.flatMap (fun p => List.replicate p.2 p.1)

/-- Categories of the 47 predefined scenarios, in order. -/
def SCENARIO_CATEGORIES : List String := ENHANCED_TICKET_SCENARIOS.map (·.category)

/-- Placeholder ticket document used as the default of list indexing when a
concrete generated document is extracted in a closed statement. -/
def dummyTicketDoc : TicketDoc :=
  ⟨"", "", Priority.MEDIUM, Status.OPEN, "", "", "", "", 0, none, none, none, none⟩

theorem unitI_zero : unitI 0 := ⟨le_refl 0, by norm_num⟩

theorem zeroDraws_wf : zeroDraws.WF := by
  constructor <;> exact unitI_zero

theorem uniformQ_mem (a b t : ℚ) (hab : a ≤ b) (ht : unitI t) :
    a ≤ uniformQ a b t ∧ uniformQ a b t ≤ b := by
  obtain ⟨h0, h1⟩ := ht
  unfold uniformQ
  constructor
  · nlinarith
  · nlinarith

theorem randintQ_mem (lo hi : ℤ) (t : ℚ) (hlohi : lo ≤ hi) (ht : unitI t) :
    lo ≤ randintQ lo hi t ∧ randintQ lo hi t ≤ hi := by
  obtain ⟨h0, _⟩ := ht
  unfold randintQ
  have hfl : (0 : ℤ) ≤ ⌊t * ((hi - lo + 1 : ℤ) : ℚ)⌋ := by
    apply Int.floor_nonneg.mpr
    apply mul_nonneg h0
    exact_mod_cast (by omega : (0 : ℤ) ≤ hi - lo + 1)
  constructor
  · have : (0 : ℤ) ≤ min ⌊t * ((hi - lo + 1 : ℤ) : ℚ)⌋ (hi - lo) := le_min hfl (by omega)
    omega
  · have : min ⌊t * ((hi - lo + 1 : ℤ) : ℚ)⌋ (hi - lo) ≤ hi - lo := min_le_right _ _
    omega

theorem getD_mem {α : Type} (l : List α) (i : Nat) (d : α) (h : i < l.length) :
    l.getD i d ∈ l := by
  rw [List.getD_eq_getElem _ _ h]
  exact List.getElem_mem _

theorem getD_of_le {α : Type} (l : List α) (i : Nat) (d : α) (h : l.length ≤ i) :
    l.getD i d = d := by
  simp [List.getD, List.getElem?_eq_none h]

theorem chooseFrom_mem {α : Type} (l : List α) (dflt : α) (t : ℚ)
    (hl : l ≠ []) (ht : unitI t) : chooseFrom l dflt t ∈ l := by
  unfold chooseFrom
  have hlen : 1 ≤ l.length := List.length_pos.mpr hl
  have hle : (0 : ℤ) ≤ (l.length : ℤ) - 1 := by omega
  obtain ⟨hlo, hhi⟩ := randintQ_mem 0 ((l.length : ℤ) - 1) t hle ht
  apply getD_mem
  omega

theorem hourOfDay_replaceHour (t : ℚ) (h : ℤ) (h0 : 0 ≤ h) (h24 : h < 24) :
    hourOfDay (replaceHour t h) = h := by
  unfold hourOfDay replaceHour
  have heq : t - ((hourOfDay t : ℤ) : ℚ) + (h : ℚ) = t + ((h - hourOfDay t : ℤ) : ℚ) := by
    push_cast
    ring
  rw [heq, Int.floor_add_int]
  unfold hourOfDay
  omega

theorem hourFor_business (d : Draws) (hd : d.WF) (hcoin : d.coinT < 4/5) :
    8 ≤ hourFor d ∧ hourFor d ≤ 18 := by
  unfold hourFor
  rw [if_pos hcoin]
  exact randintQ_mem 8 18 d.bizHourT (by omega) hd.bizHourT

theorem hourFor_offhours (d : Draws) (hd : d.WF) (hcoin : ¬ d.coinT < 4/5) :
    hourFor d ∈ OFF_HOURS := by
  unfold hourFor
  rw [if_neg hcoin]
  exact chooseFrom_mem OFF_HOURS 0 d.offHourT (by decide) hd.offHourT

theorem hourFor_bounds (d : Draws) (hd : d.WF) : 0 ≤ hourFor d ∧ hourFor d < 24 := by
  by_cases hcoin : d.coinT < 4/5
  · obtain ⟨h1, h2⟩ := hourFor_business d hd hcoin
    omega
  · have hmem := hourFor_offhours d hd hcoin
    have : ∀ x ∈ OFF_HOURS, 0 ≤ x ∧ x < 24 := by decide
    exact this _ hmem

theorem mkTicketDoc_category (now : ℚ) (catList : List String) (statusList : List Status)
    (priorityList : List Priority) (agents : List Agent) (i : Nat) (d : Draws) :
    (mkTicketDoc now catList statusList priorityList agents i d).1.category =
      ticketCategory catList i := rfl

theorem mkTicketDoc_status (now : ℚ) (catList : List String) (statusList : List Status)
    (priorityList : List Priority) (agents : List Agent) (i : Nat) (d : Draws) :
    (mkTicketDoc now catList statusList priorityList agents i d).1.status =
      ticketStatus statusList i := rfl

theorem genTicketsAux_length (now : ℚ) (catList : List String) (statusList : List Status)
    (priorityList : List Priority) (draws : Nat → Draws) :
    ∀ (idxs : List Nat) (agents : List Agent),
      (genTicketsAux now catList statusList priorityList draws idxs agents).length = idxs.length
  | [], _ => rfl
  | i :: rest, agents => by
    rw [genTicketsAux, List.length_cons, List.length_cons,
      genTicketsAux_length now catList statusList priorityList draws rest _]

theorem genTicketsAux_map_category (now : ℚ) (catList : List String) (statusList : List Status)
    (priorityList : List Priority) (draws : Nat → Draws) :
    ∀ (idxs : List Nat) (agents : List Agent),
      (genTicketsAux now catList statusList priorityList draws idxs agents).map (·.category) =
        idxs.map (ticketCategory catList)
  | [], _ => rfl
  | i :: rest, agents => by
    rw [genTicketsAux, List.map_cons, List.map_cons, mkTicketDoc_category,
      genTicketsAux_map_category now catList statusList priorityList draws rest _]

theorem mem_genTicketsAux (now : ℚ) (catList : List String) (statusList : List Status)
    (priorityList : List Priority) (draws : Nat → Draws) :
    ∀ (idxs : List Nat) (agents : List Agent) (doc : TicketDoc),
      doc ∈ genTicketsAux now catList statusList priorityList draws idxs agents →
      ∃ i ags, i ∈ idxs ∧
        doc = (mkTicketDoc now catList statusList priorityList ags i (draws i)).1
  | [], _, doc, h => by simp [genTicketsAux] at h
  | i :: rest, agents, doc, h => by
    rw [genTicketsAux] at h
    rcases List.mem_cons.mp h with h1 | h2
    · exact ⟨i, agents, List.mem_cons_self i rest, h1⟩
    · obtain ⟨i', ags', hmem, heq⟩ :=
        mem_genTicketsAux now catList statusList priorityList draws rest _ doc h2
      exact ⟨i', ags', List.mem_cons_of_mem i hmem, heq⟩

theorem findBestAgentIdx_spec (cat : String) :
    ∀ (l : List Agent) (j : Nat), findBestAgentIdx cat l = some j →
      j < l.length ∧ eligibleAgent cat (l.getD j dummyAgent) ∧
        ∀ k, k < j → ¬ eligibleAgent cat (l.getD k dummyAgent)
  | [], j, h => by simp [findBestAgentIdx] at h
  | a :: rest, j, h => by
    by_cases he : eligibleAgent cat a
    · rw [findBestAgentIdx, if_pos he] at h
      obtain rfl : (0 : Nat) = j := by simpa using h
      refine ⟨Nat.succ_pos _, by simpa using he, ?_⟩
      intro k hk
      exact absurd hk (Nat.not_lt_zero k)
    · rw [findBestAgentIdx, if_neg he] at h
      cases hr : findBestAgentIdx cat rest with
      | none => rw [hr] at h; simp at h
      | some j' =>
        rw [hr] at h
        obtain rfl : j' + 1 = j := by simpa using h
        obtain ⟨h1, h2, h3⟩ := findBestAgentIdx_spec cat rest j' hr
        refine ⟨by simpa using Nat.succ_lt_succ h1, by simpa using h2, ?_⟩
        intro k hk
        cases k with
        | zero => simpa using he
        | succ k' => simpa using h3 k' (Nat.lt_of_succ_lt_succ hk)

theorem findBestAgentIdx_none (cat : String) :
    ∀ (l : List Agent), findBestAgentIdx cat l = none →
      ∀ k, k < l.length → ¬ eligibleAgent cat (l.getD k dummyAgent)
  | [], _, k, hk => by simp at hk
  | a :: rest, h, k, hk => by
    by_cases he : eligibleAgent cat a
    · rw [findBestAgentIdx, if_pos he] at h
      exact absurd h (by simp)
    · rw [findBestAgentIdx, if_neg he] at h
      cases hr : findBestAgentIdx cat rest with
      | some j' => rw [hr] at h; simp at h
      | none =>
        cases k with
        | zero => simpa using he
        | succ k' =>
          have := findBestAgentIdx_none cat rest hr k' (by simpa using Nat.lt_of_succ_lt_succ hk)
          simpa using this

theorem leastLoadedIdx_spec :
    ∀ (l : List Agent), l ≠ [] →
      leastLoadedIdx l < l.length ∧
      (∀ k, k < l.length →
        (l.getD (leastLoadedIdx l) dummyAgent).workload ≤ (l.getD k dummyAgent).workload) ∧
      (∀ k, k < leastLoadedIdx l →
        (l.getD (leastLoadedIdx l) dummyAgent).workload < (l.getD k dummyAgent).workload)
  | [], h => absurd rfl h
  | [a], _ => by
    refine ⟨by simp [leastLoadedIdx], ?_, ?_⟩
    · intro k hk
      obtain rfl : k = 0 := by simpa using Nat.lt_one_iff.mp (by simpa using hk)
      simp [leastLoadedIdx]
    · intro k hk
      simp [leastLoadedIdx] at hk
  | a :: b :: rest, _ => by
    obtain ⟨ih1, ih2, ih3⟩ := leastLoadedIdx_spec (b :: rest) (by simp)
    by_cases hc : ((b :: rest).getD (leastLoadedIdx (b :: rest)) dummyAgent).workload < a.workload
    · have hval : leastLoadedIdx (a :: b :: rest) = leastLoadedIdx (b :: rest) + 1 := by
        rw [leastLoadedIdx, if_pos hc]
      rw [hval]
      refine ⟨by simpa using Nat.succ_lt_succ ih1, ?_, ?_⟩
      · intro k hk
        cases k with
        | zero => simpa using le_of_lt hc
        | succ k' =>
          have := ih2 k' (by simpa using Nat.lt_of_succ_lt_succ hk)
          simpa using this
      · intro k hk
        cases k with
        | zero => simpa using hc
        | succ k' =>
          have := ih3 k' (Nat.lt_of_succ_lt_succ hk)
          simpa using this
    · have hval : leastLoadedIdx (a :: b :: rest) = 0 := by
        rw [leastLoadedIdx, if_neg hc]
      rw [hval]
      push_neg at hc
      refine ⟨Nat.succ_pos _, ?_, ?_⟩
      · intro k hk
        cases k with
        | zero => simp
        | succ k' =>
          have := ih2 k' (by simpa using Nat.lt_of_succ_lt_succ hk)
          simpa using le_trans hc this
      · intro k hk
        exact absurd hk (Nat.not_lt_zero k)

theorem bumpWorkload_length : ∀ (l : List Agent) (j : Nat),
    (bumpWorkload l j).length = l.length
  | [], _ => rfl
  | _ :: _, 0 => rfl
  | a :: rest, j + 1 => by
    rw [bumpWorkload, List.length_cons, List.length_cons, bumpWorkload_length rest j]

theorem bumpWorkload_getD : ∀ (l : List Agent) (j k : Nat), k < l.length →
    (bumpWorkload l j).getD k dummyAgent =
      (if k = j then
        { l.getD k dummyAgent with workload := (l.getD k dummyAgent).workload + 1 }
      else l.getD k dummyAgent)
  | [], j, k, hk => by simp at hk
  | a :: rest, 0, 0, _ => by simp [bumpWorkload]
  | a :: rest, 0, k + 1, hk => by simp [bumpWorkload]
  | a :: rest, j + 1, 0, _ => by simp [bumpWorkload]
  | a :: rest, j + 1, k + 1, hk => by
    have := bumpWorkload_getD rest j k (by simpa using Nat.lt_of_succ_lt_succ hk)
    simp only [bumpWorkload, List.getD_cons_succ]
    rw [this]
    by_cases hkj : k = j
    · simp [hkj]
    · simp [hkj, fun h => hkj (Nat.succ_injective h)]

theorem count_expandDistribution_of_notMem {α : Type} [DecidableEq α] (a : α) :
    ∀ (dist : List (α × Nat)), a ∉ dist.map Prod.fst →
      (expandDistribution dist).count a = 0
  | [], _ => rfl
  | p :: rest, h => by
    have hne : a ≠ p.1 := by
      intro he
      exact h (by simp [he])
    have hrest : a ∉ rest.map Prod.fst := fun hm => h (by simp [hm])
    simp only [expandDistribution, List.flatMap_cons, List.count_append]
    rw [List.count_replicate]
    simp only [beq_iff_eq]
    rw [if_neg (Ne.symm hne)]
    have := count_expandDistribution_of_notMem a rest hrest
    simpa [expandDistribution] using this

theorem count_expandDistribution {α : Type} [DecidableEq α] :
    ∀ (dist : List (α × Nat)) (p : α × Nat), (dist.map Prod.fst).Nodup → p ∈ dist →
      (expandDistribution dist).count p.1 = p.2
  | [], p, _, hp => absurd hp (List.not_mem_nil p)
  | q :: rest, p, hnd, hp => by
    rw [List.map_cons] at hnd
    have hq : q.1 ∉ rest.map Prod.fst := (List.nodup_cons.mp hnd).1
    have hndr : (rest.map Prod.fst).Nodup := (List.nodup_cons.mp hnd).2
    simp only [expandDistribution, List.flatMap_cons, List.count_append]
    rcases List.mem_cons.mp hp with rfl | hpr
    · rw [List.count_replicate]
      simp only [beq_self_eq_true, if_true]
      have := count_expandDistribution_of_notMem p.1 rest hq
      simp only [expandDistribution] at this
      omega
    · have hne : q.1 ≠ p.1 := by
        intro he
        exact hq (he ▸ List.mem_map_of_mem Prod.fst hpr)
      rw [List.count_replicate]
      simp only [beq_iff_eq]
      rw [if_neg hne]
      have := count_expandDistribution rest p hndr hpr
      simp only [expandDistribution] at this
      omega

theorem length_expandDistribution {α : Type} (dist : List (α × Nat)) :
    (expandDistribution dist).length = (dist.map Prod.snd).sum := by
  induction dist with
  | nil => rfl
  | cons p rest ih =>
    simp only [expandDistribution, List.flatMap_cons, List.length_append,
      List.length_replicate, List.map_cons, List.sum_cons]
    simp only [expandDistribution] at ih
    omega

theorem findOneByTitle_isSome (store : List ArticleDoc) (t : String) :
    (findOneByTitle store t).isSome ↔ ∃ doc ∈ store, doc.title = t := by
  simp [findOneByTitle, List.find?_isSome]

theorem addArticles_skip (now : ℚ) (a : Article) (rest : List Article)
    (store : List ArticleDoc) (c : Nat) (h : ∃ doc ∈ store, doc.title = a.title) :
    addArticles now (a :: rest) store c = addArticles now rest store c := by
  have hs : (findOneByTitle store a.title).isSome := (findOneByTitle_isSome _ _).mpr h
  cases hf : findOneByTitle store a.title with
  | none => rw [hf] at hs; simp at hs
  | some d => simp only [addArticles, hf]

/-- C4: for every distribution mapping (with distinct labels, as a Python dict
has) whose counts sum to N, the expand-and-shuffle step produces a sequence of
length N in which each label appears exactly its configured count, for every
shuffle outcome; indexing at or beyond N falls back to the default label. -/
theorem C4_expand_and_shuffle_exact {α : Type} [DecidableEq α]
    (dist : List (α × Nat)) (N : Nat) (shuffled : List α) (dflt : α)
    (hkeys : (dist.map Prod.fst).Nodup)
    (hsum : (dist.map Prod.snd).sum = N)
    (hperm : shuffled.Perm (expandDistribution dist)) :
    shuffled.length = N ∧
    (∀ p ∈ dist, shuffled.count p.1 = p.2) ∧
    (∀ i, N ≤ i → shuffled.getD i dflt = dflt) := by
  have hlen : shuffled.length = N := by
    rw [hperm.length_eq, length_expandDistribution, hsum]
  refine ⟨hlen, ?_, ?_⟩
  · intro p hp
    rw [hperm.count_eq]
    exact count_expandDistribution dist p hkeys hp
  · intro i hi
    exact getD_of_le _ _ _ (by omega)

/-- Witness for C4 at the concrete category distribution of the script, with
the identity shuffle. -/
theorem C4_expand_and_shuffle_exact_witness :
    (expandDistribution CATEGORY_DISTRIBUTION).length = 50 ∧
    (∀ p ∈ CATEGORY_DISTRIBUTION, (expandDistribution CATEGORY_DISTRIBUTION).count p.1 = p.2) ∧
    (∀ i, 50 ≤ i → (expandDistribution CATEGORY_DISTRIBUTION).getD i "Other" = "Other") :=
  C4_expand_and_shuffle_exact CATEGORY_DISTRIBUTION 50
    (expandDistribution CATEGORY_DISTRIBUTION) "Other"
    (by decide) (by decide) (List.Perm.refl _)

/-- C5: when the pre-generation count reports at least the intended total
(50 tickets, `len(SAMPLE_ARTICLES)` articles), no create calls are issued,
the collection state is untouched, and the run reports the existing count
and returns normally. -/
theorem C5_idempotency_guard :
    (∀ (existingCount : Nat) (now : ℚ) (catList : List String) (statusList : List Status)
       (priorityList : List Priority) (draws : Nat → Draws),
       50 ≤ existingCount →
       generate_enhanced_tickets existingCount now catList statusList priorityList draws
         = ⟨[], existingCount⟩) ∧
    (∀ (now : ℚ) (store : List ArticleDoc), SAMPLE_ARTICLES.length ≤ store.length →
       populate_knowledge_base now store = ⟨store, 0, store.length⟩) := by
  constructor
  · intro existingCount now catList statusList priorityList draws h
    unfold generate_enhanced_tickets
    rw [if_pos h]
  · intro now store h
    unfold populate_knowledge_base
    rw [if_pos h]

/-- Witness for C5: an existing count of exactly the target on both scripts. -/
theorem C5_idempotency_guard_witness :
    generate_enhanced_tickets 50 0 [] [] [] (fun _ => zeroDraws) = ⟨[], 50⟩ ∧
    populate_knowledge_base 0
        (List.replicate 12 (mkArticleDoc 0 ⟨"t", "c", [], "a"⟩))
      = ⟨List.replicate 12 (mkArticleDoc 0 ⟨"t", "c", [], "a"⟩), 0, 12⟩ :=
  ⟨C5_idempotency_guard.1 50 0 [] [] [] (fun _ => zeroDraws) (by omega),
   C5_idempotency_guard.2 0 (List.replicate 12 (mkArticleDoc 0 ⟨"t", "c", [], "a"⟩))
     (by decide)⟩

/-- C10: an exception during the pre-generation count check is caught: the
function returns 0 with a printed warning, so the count guard (`0 ≥ 50`) does
not trip and generation proceeds to issue its 50 create calls. -/
theorem C10_count_check_error_fallback (msg : String) (now : ℚ)
    (catList : List String) (statusList : List Status) (priorityList : List Priority)
    (draws : Nat → Draws) :
    (check_existing_tickets_count (Except.error msg)).1 = 0 ∧
    (check_existing_tickets_count (Except.error msg)).2
      = ["⚠️ Error checking existing tickets: " ++ msg] ∧
    ¬ 50 ≤ (check_existing_tickets_count (Except.error msg)).1 ∧
    (generate_enhanced_tickets (check_existing_tickets_count (Except.error msg)).1
       now catList statusList priorityList draws).createdDocs.length = 50 := by
  refine ⟨rfl, rfl, by show ¬ (50 : Nat) ≤ 0; omega, ?_⟩
  show (generate_enhanced_tickets 0 now catList statusList priorityList draws).createdDocs.length = 50
  unfold generate_enhanced_tickets
  rw [if_neg (by omega)]
  rw [genTicketsAux_length]
  simp [TOTAL_TICKETS]

/-- C2: for a non-open ticket the chosen agent is the first of the pool that
has the ticket category among its skills and workload below 8; when no agent
satisfies both, the first agent of globally minimal workload is chosen (ties
resolved by pool order); the chosen agent's workload rises by exactly 1 and
nobody else's changes, and the generator really assigns and bumps this way. -/
theorem C2_agent_assignment_policy (agents : List Agent) (cat : String)
    (hne : agents ≠ []) :
    assignAgent agents cat < agents.length ∧
    ((∃ k, k < agents.length ∧ eligibleAgent cat (agents.getD k dummyAgent)) →
      eligibleAgent cat (agents.getD (assignAgent agents cat) dummyAgent) ∧
      ∀ k, k < assignAgent agents cat → ¬ eligibleAgent cat (agents.getD k dummyAgent)) ∧
    ((∀ k, k < agents.length → ¬ eligibleAgent cat (agents.getD k dummyAgent)) →
      (∀ k, k < agents.length →
        (agents.getD (assignAgent agents cat) dummyAgent).workload
          ≤ (agents.getD k dummyAgent).workload) ∧
      ∀ k, k < assignAgent agents cat →
        (agents.getD (assignAgent agents cat) dummyAgent).workload
          < (agents.getD k dummyAgent).workload) ∧
    (bumpWorkload agents (assignAgent agents cat)).length = agents.length ∧
    (bumpWorkload agents (assignAgent agents cat)).getD (assignAgent agents cat) dummyAgent
      = { agents.getD (assignAgent agents cat) dummyAgent with
          workload := (agents.getD (assignAgent agents cat) dummyAgent).workload + 1 } ∧
    (∀ k, k < agents.length → k ≠ assignAgent agents cat →
      (bumpWorkload agents (assignAgent agents cat)).getD k dummyAgent
        = agents.getD k dummyAgent) ∧
    (∀ (now : ℚ) (catList : List String) (statusList : List Status)
       (priorityList : List Priority) (i : Nat) (d : Draws),
      ticketStatus statusList i ≠ Status.OPEN →
      (mkTicketDoc now catList statusList priorityList agents i d).1.assigned_to
        = some ((agents.getD (assignAgent agents (ticketCategory catList i)) dummyAgent).name) ∧
      (mkTicketDoc now catList statusList priorityList agents i d).2
        = bumpWorkload agents (assignAgent agents (ticketCategory catList i))) := by
  have hlt : assignAgent agents cat < agents.length := by
    unfold assignAgent
    cases hf : findBestAgentIdx cat agents with
    | some j => exact (findBestAgentIdx_spec cat agents j hf).1
    | none => exact (leastLoadedIdx_spec agents hne).1
  refine ⟨hlt, ?_, ?_, bumpWorkload_length agents _, ?_, ?_, ?_⟩
  · intro hex
    unfold assignAgent
    cases hf : findBestAgentIdx cat agents with
    | some j =>
      obtain ⟨_, h2, h3⟩ := findBestAgentIdx_spec cat agents j hf
      exact ⟨h2, h3⟩
    | none =>
      obtain ⟨k, hk, hke⟩ := hex
      exact absurd hke (findBestAgentIdx_none cat agents hf k hk)
  · intro hnone
    unfold assignAgent
    cases hf : findBestAgentIdx cat agents with
    | some j =>
      obtain ⟨h1, h2, _⟩ := findBestAgentIdx_spec cat agents j hf
      exact absurd h2 (hnone j h1)
    | none =>
      obtain ⟨_, h2, h3⟩ := leastLoadedIdx_spec agents hne
      exact ⟨h2, h3⟩
  · rw [bumpWorkload_getD agents _ _ hlt]
    simp
  · intro k hk hkne
    rw [bumpWorkload_getD agents _ k hk]
    simp [hkne]
  · intro now catList statusList priorityList i d hs
    constructor
    · show (if ticketStatus statusList i = Status.OPEN then none
            else some ((agents.getD (assignAgent agents (ticketCategory catList i))
                         dummyAgent).name)) = _
      rw [if_neg hs]
    · show (if ticketStatus statusList i = Status.OPEN then agents
            else bumpWorkload agents (assignAgent agents (ticketCategory catList i))) = _
      rw [if_neg hs]

/-- Witness for C2 at the script's agent pool with category "Network". -/
theorem C2_agent_assignment_policy_witness :
    assignAgent AGENTS "Network" < AGENTS.length ∧
    ((∃ k, k < AGENTS.length ∧ eligibleAgent "Network" (AGENTS.getD k dummyAgent)) →
      eligibleAgent "Network" (AGENTS.getD (assignAgent AGENTS "Network") dummyAgent) ∧
      ∀ k, k < assignAgent AGENTS "Network" →
        ¬ eligibleAgent "Network" (AGENTS.getD k dummyAgent)) ∧
    ((∀ k, k < AGENTS.length → ¬ eligibleAgent "Network" (AGENTS.getD k dummyAgent)) →
      (∀ k, k < AGENTS.length →
        (AGENTS.getD (assignAgent AGENTS "Network") dummyAgent).workload
          ≤ (AGENTS.getD k dummyAgent).workload) ∧
      ∀ k, k < assignAgent AGENTS "Network" →
        (AGENTS.getD (assignAgent AGENTS "Network") dummyAgent).workload
          < (AGENTS.getD k dummyAgent).workload) ∧
    (bumpWorkload AGENTS (assignAgent AGENTS "Network")).length = AGENTS.length ∧
    (bumpWorkload AGENTS (assignAgent AGENTS "Network")).getD
        (assignAgent AGENTS "Network") dummyAgent
      = { AGENTS.getD (assignAgent AGENTS "Network") dummyAgent with
          workload := (AGENTS.getD (assignAgent AGENTS "Network") dummyAgent).workload + 1 } ∧
    (∀ k, k < AGENTS.length → k ≠ assignAgent AGENTS "Network" →
      (bumpWorkload AGENTS (assignAgent AGENTS "Network")).getD k dummyAgent
        = AGENTS.getD k dummyAgent) ∧
    (∀ (now : ℚ) (catList : List String) (statusList : List Status)
       (priorityList : List Priority) (i : Nat) (d : Draws),
      ticketStatus statusList i ≠ Status.OPEN →
      (mkTicketDoc now catList statusList priorityList AGENTS i d).1.assigned_to
        = some ((AGENTS.getD (assignAgent AGENTS (ticketCategory catList i)) dummyAgent).name) ∧
      (mkTicketDoc now catList statusList priorityList AGENTS i d).2
        = bumpWorkload AGENTS (assignAgent AGENTS (ticketCategory catList i))) :=
  C2_agent_assignment_policy AGENTS "Network" (by decide)

/-- C3: for a generated ticket whose status is Resolved or Closed, the stored
`updated_at` equals `created_at` plus the sampled resolution latency, and for
every well-formed sample the latency lies in the priority-dependent interval
(Critical [0.5, 4], High [2, 24], Medium [4, 72], Low [24, 168] hours). -/
theorem C3_resolution_latency (now : ℚ) (catList : List String) (statusList : List Status)
    (priorityList : List Priority) (agents : List Agent) (i : Nat) (d : Draws)
    (hwf : d.WF)
    (hres : ticketStatus statusList i = Status.RESOLVED
            ∨ ticketStatus statusList i = Status.CLOSED) :
    (mkTicketDoc now catList statusList priorityList agents i d).1.created_at
      = some (createdTimeFor now (ticketStatus statusList i) d) ∧
    (mkTicketDoc now catList statusList priorityList agents i d).1.updated_at
      = some (createdTimeFor now (ticketStatus statusList i) d
              + resolutionHoursFor (ticketPriority priorityList i) d.resolutionHoursT) ∧
    (ticketPriority priorityList i = Priority.CRITICAL →
      1/2 ≤ resolutionHoursFor (ticketPriority priorityList i) d.resolutionHoursT ∧
      resolutionHoursFor (ticketPriority priorityList i) d.resolutionHoursT ≤ 4) ∧
    (ticketPriority priorityList i = Priority.HIGH →
      2 ≤ resolutionHoursFor (ticketPriority priorityList i) d.resolutionHoursT ∧
      resolutionHoursFor (ticketPriority priorityList i) d.resolutionHoursT ≤ 24) ∧
    (ticketPriority priorityList i = Priority.MEDIUM →
      4 ≤ resolutionHoursFor (ticketPriority priorityList i) d.resolutionHoursT ∧
      resolutionHoursFor (ticketPriority priorityList i) d.resolutionHoursT ≤ 72) ∧
    (ticketPriority priorityList i = Priority.LOW →
      24 ≤ resolutionHoursFor (ticketPriority priorityList i) d.resolutionHoursT ∧
      resolutionHoursFor (ticketPriority priorityList i) d.resolutionHoursT ≤ 168) := by
  have hopen : ticketStatus statusList i ≠ Status.OPEN := by
    rcases hres with h | h <;> rw [h] <;> intro hc <;> cases hc
  refine ⟨rfl, ?_, ?_, ?_, ?_, ?_⟩
  · show (if ticketStatus statusList i = Status.OPEN then
            some (createdTimeFor now (ticketStatus statusList i) d)
          else if ticketStatus statusList i = Status.RESOLVED
                  ∨ ticketStatus statusList i = Status.CLOSED then
            some (createdTimeFor now (ticketStatus statusList i) d
                  + resolutionHoursFor (ticketPriority priorityList i) d.resolutionHoursT)
          else some (createdTimeFor now (ticketStatus statusList i) d)) = _
    rw [if_neg hopen, if_pos hres]
  · intro hp
    rw [hp]
    exact uniformQ_mem (1/2) 4 d.resolutionHoursT (by norm_num) hwf.resolutionHoursT
  · intro hp
    rw [hp]
    exact uniformQ_mem 2 24 d.resolutionHoursT (by norm_num) hwf.resolutionHoursT
  · intro hp
    rw [hp]
    exact uniformQ_mem 4 72 d.resolutionHoursT (by norm_num) hwf.resolutionHoursT
  · intro hp
    rw [hp]
    exact uniformQ_mem 24 168 d.resolutionHoursT (by norm_num) hwf.resolutionHoursT

/-- Witness for C3 at ticket index 0 (scenario priority Critical) with a
status list making the ticket Resolved and the all-zero draws. -/
theorem C3_resolution_latency_witness :
    (mkTicketDoc 0 [] [Status.RESOLVED] [] AGENTS 0 zeroDraws).1.created_at
      = some (createdTimeFor 0 (ticketStatus [Status.RESOLVED] 0) zeroDraws) ∧
    (mkTicketDoc 0 [] [Status.RESOLVED] [] AGENTS 0 zeroDraws).1.updated_at
      = some (createdTimeFor 0 (ticketStatus [Status.RESOLVED] 0) zeroDraws
              + resolutionHoursFor (ticketPriority [] 0) zeroDraws.resolutionHoursT) ∧
    (ticketPriority [] 0 = Priority.CRITICAL →
      1/2 ≤ resolutionHoursFor (ticketPriority [] 0) zeroDraws.resolutionHoursT ∧
      resolutionHoursFor (ticketPriority [] 0) zeroDraws.resolutionHoursT ≤ 4) ∧
    (ticketPriority [] 0 = Priority.HIGH →
      2 ≤ resolutionHoursFor (ticketPriority [] 0) zeroDraws.resolutionHoursT ∧
      resolutionHoursFor (ticketPriority [] 0) zeroDraws.resolutionHoursT ≤ 24) ∧
    (ticketPriority [] 0 = Priority.MEDIUM →
      4 ≤ resolutionHoursFor (ticketPriority [] 0) zeroDraws.resolutionHoursT ∧
      resolutionHoursFor (ticketPriority [] 0) zeroDraws.resolutionHoursT ≤ 72) ∧
    (ticketPriority [] 0 = Priority.LOW →
      24 ≤ resolutionHoursFor (ticketPriority [] 0) zeroDraws.resolutionHoursT ∧
      resolutionHoursFor (ticketPriority [] 0) zeroDraws.resolutionHoursT ≤ 168) :=
  C3_resolution_latency 0 [] [Status.RESOLVED] [] AGENTS 0 zeroDraws zeroDraws_wf
    (Or.inl (by decide))

/-- C9: the creation timestamp of every generated ticket is
`now - (days_ago*24h + hours + minutes)` with the hour-of-day replaced by the
drawn hour; `days_ago` lies in the status-dependent range (Closed 7-60,
Resolved 1-14, InProgress 0-7, Open 0-3); the hour draw lands in the 8-18
business window exactly when the independent coin is below 0.8 and otherwise
in the off-hours pool, which is disjoint from the business window; and the
stored creation time really carries the drawn hour as its hour-of-day. -/
theorem C9_timestamp_synthesis (now : ℚ) (catList : List String) (statusList : List Status)
    (priorityList : List Priority) (agents : List Agent) (i : Nat) (d : Draws)
    (hwf : d.WF) :
    (mkTicketDoc now catList statusList priorityList agents i d).1.created_at
      = some (createdTimeFor now (ticketStatus statusList i) d) ∧
    createdTimeFor now (ticketStatus statusList i) d
      = replaceHour
          (now - (((daysAgoFor (ticketStatus statusList i) d.daysAgoT : ℤ) : ℚ) * 24
                  + ((randintQ 0 23 d.jitterHoursT : ℤ) : ℚ)
                  + ((randintQ 0 59 d.jitterMinutesT : ℤ) : ℚ) / 60))
          (hourFor d) ∧
    (ticketStatus statusList i = Status.CLOSED →
      7 ≤ daysAgoFor (ticketStatus statusList i) d.daysAgoT ∧
      daysAgoFor (ticketStatus statusList i) d.daysAgoT ≤ 60) ∧
    (ticketStatus statusList i = Status.RESOLVED →
      1 ≤ daysAgoFor (ticketStatus statusList i) d.daysAgoT ∧
      daysAgoFor (ticketStatus statusList i) d.daysAgoT ≤ 14) ∧
    (ticketStatus statusList i = Status.IN_PROGRESS →
      0 ≤ daysAgoFor (ticketStatus statusList i) d.daysAgoT ∧
      daysAgoFor (ticketStatus statusList i) d.daysAgoT ≤ 7) ∧
    (ticketStatus statusList i = Status.OPEN →
      0 ≤ daysAgoFor (ticketStatus statusList i) d.daysAgoT ∧
      daysAgoFor (ticketStatus statusList i) d.daysAgoT ≤ 3) ∧
    (d.coinT < 4/5 → 8 ≤ hourFor d ∧ hourFor d ≤ 18) ∧
    (¬ d.coinT < 4/5 → hourFor d ∈ OFF_HOURS) ∧
    (∀ x ∈ OFF_HOURS, ¬ (8 ≤ x ∧ x ≤ 18)) ∧
    hourOfDay (createdTimeFor now (ticketStatus statusList i) d) = hourFor d := by
  refine ⟨rfl, rfl, ?_, ?_, ?_, ?_,
    hourFor_business d hwf, hourFor_offhours d hwf, by decide, ?_⟩
  · intro hs
    rw [hs]
    exact randintQ_mem 7 60 d.daysAgoT (by omega) hwf.daysAgoT
  · intro hs
    rw [hs]
    exact randintQ_mem 1 14 d.daysAgoT (by omega) hwf.daysAgoT
  · intro hs
    rw [hs]
    exact randintQ_mem 0 7 d.daysAgoT (by omega) hwf.daysAgoT
  · intro hs
    rw [hs]
    exact randintQ_mem 0 3 d.daysAgoT (by omega) hwf.daysAgoT
  · obtain ⟨h0, h24⟩ := hourFor_bounds d hwf
    exact hourOfDay_replaceHour _ _ h0 h24

/-- Witness for C9 at ticket index 0 with the all-zero draws. -/
theorem C9_timestamp_synthesis_witness :
    (mkTicketDoc 0 [] [] [] AGENTS 0 zeroDraws).1.created_at
      = some (createdTimeFor 0 (ticketStatus [] 0) zeroDraws) ∧
    createdTimeFor 0 (ticketStatus [] 0) zeroDraws
      = replaceHour
          (0 - (((daysAgoFor (ticketStatus [] 0) zeroDraws.daysAgoT : ℤ) : ℚ) * 24
                + ((randintQ 0 23 zeroDraws.jitterHoursT : ℤ) : ℚ)
                + ((randintQ 0 59 zeroDraws.jitterMinutesT : ℤ) : ℚ) / 60))
          (hourFor zeroDraws) ∧
    (ticketStatus [] 0 = Status.CLOSED →
      7 ≤ daysAgoFor (ticketStatus [] 0) zeroDraws.daysAgoT ∧
      daysAgoFor (ticketStatus [] 0) zeroDraws.daysAgoT ≤ 60) ∧
    (ticketStatus [] 0 = Status.RESOLVED →
      1 ≤ daysAgoFor (ticketStatus [] 0) zeroDraws.daysAgoT ∧
      daysAgoFor (ticketStatus [] 0) zeroDraws.daysAgoT ≤ 14) ∧
    (ticketStatus [] 0 = Status.IN_PROGRESS →
      0 ≤ daysAgoFor (ticketStatus [] 0) zeroDraws.daysAgoT ∧
      daysAgoFor (ticketStatus [] 0) zeroDraws.daysAgoT ≤ 7) ∧
    (ticketStatus [] 0 = Status.OPEN →
      0 ≤ daysAgoFor (ticketStatus [] 0) zeroDraws.daysAgoT ∧
      daysAgoFor (ticketStatus [] 0) zeroDraws.daysAgoT ≤ 3) ∧
    (zeroDraws.coinT < 4/5 → 8 ≤ hourFor zeroDraws ∧ hourFor zeroDraws ≤ 18) ∧
    (¬ zeroDraws.coinT < 4/5 → hourFor zeroDraws ∈ OFF_HOURS) ∧
    (∀ x ∈ OFF_HOURS, ¬ (8 ≤ x ∧ x ≤ 18)) ∧
    hourOfDay (createdTimeFor 0 (ticketStatus [] 0) zeroDraws) = hourFor zeroDraws :=
  C9_timestamp_synthesis 0 [] [] [] AGENTS 0 zeroDraws zeroDraws_wf

/-- C8: every document created by the generator carries the `assigned_to`
field exactly when the ticket's status is not Open. -/
theorem C8_assigned_iff_not_open (existingCount : Nat) (now : ℚ)
    (catList : List String) (statusList : List Status) (priorityList : List Priority)
    (draws : Nat → Draws) (doc : TicketDoc)
    (hdoc : doc ∈ (generate_enhanced_tickets existingCount now catList statusList
                     priorityList draws).createdDocs) :
    doc.assigned_to.isSome ↔ doc.status ≠ Status.OPEN := by
  unfold generate_enhanced_tickets at hdoc
  by_cases hge : existingCount ≥ 50
  · rw [if_pos hge] at hdoc
    exact absurd hdoc (List.not_mem_nil doc)
  · rw [if_neg hge] at hdoc
    obtain ⟨i, ags, _, rfl⟩ :=
      mem_genTicketsAux now catList statusList priorityList draws _ AGENTS doc hdoc
    by_cases hs : ticketStatus statusList i = Status.OPEN
    · simp [mkTicketDoc, hs]
    · simp [mkTicketDoc, hs]

/-- Witness for C8 at the first document of a concrete run. -/
theorem C8_assigned_iff_not_open_witness :
    (((generate_enhanced_tickets 0 0 [] [] [] (fun _ => zeroDraws)).createdDocs.getD 0
        dummyTicketDoc).assigned_to.isSome
      ↔ ((generate_enhanced_tickets 0 0 [] [] [] (fun _ => zeroDraws)).createdDocs.getD 0
        dummyTicketDoc).status ≠ Status.OPEN) :=
  C8_assigned_iff_not_open 0 0 [] [] [] (fun _ => zeroDraws) _
    (getD_mem _ 0 dummyTicketDoc (by
      have h50 : (generate_enhanced_tickets 0 0 [] [] []
          (fun _ => zeroDraws)).createdDocs.length = 50 := by
        unfold generate_enhanced_tickets
        rw [if_neg (by omega)]
        rw [genTicketsAux_length]
        simp [TOTAL_TICKETS]
      omega))

/-- C7 (amended): in every document created by the generator, `resolution` is
present exactly when the status is Resolved or Closed, while `created_at` and
`updated_at` are present in every document regardless of status. -/
theorem C7_amended_field_presence (existingCount : Nat) (now : ℚ)
    (catList : List String) (statusList : List Status) (priorityList : List Priority)
    (draws : Nat → Draws) (doc : TicketDoc)
    (hdoc : doc ∈ (generate_enhanced_tickets existingCount now catList statusList
                     priorityList draws).createdDocs) :
    (doc.resolution.isSome ↔ (doc.status = Status.RESOLVED ∨ doc.status = Status.CLOSED)) ∧
    doc.created_at.isSome ∧ doc.updated_at.isSome := by
  unfold generate_enhanced_tickets at hdoc
  by_cases hge : existingCount ≥ 50
  · rw [if_pos hge] at hdoc
    exact absurd hdoc (List.not_mem_nil doc)
  · rw [if_neg hge] at hdoc
    obtain ⟨i, ags, _, rfl⟩ :=
      mem_genTicketsAux now catList statusList priorityList draws _ AGENTS doc hdoc
    cases hs : ticketStatus statusList i <;> simp [mkTicketDoc, hs]

/-- Counterexample to C7 as stated: in a concrete run (existing count 0,
identity shuffles, all-zero draws) the first generated ticket has status Open,
yet its `created_at` field is present — so presence of the timestamps is not
equivalent to the status being Resolved or Closed. -/
theorem C7_counterexample :
    ¬ (((generate_enhanced_tickets 0 0 (expandDistribution CATEGORY_DISTRIBUTION)
          (expandDistribution STATUS_DISTRIBUTION) (expandDistribution PRIORITY_DISTRIBUTION)
          (fun _ => zeroDraws)).createdDocs.getD 0 dummyTicketDoc).created_at.isSome
        ↔ (((generate_enhanced_tickets 0 0 (expandDistribution CATEGORY_DISTRIBUTION)
          (expandDistribution STATUS_DISTRIBUTION) (expandDistribution PRIORITY_DISTRIBUTION)
          (fun _ => zeroDraws)).createdDocs.getD 0 dummyTicketDoc).status = Status.RESOLVED
        ∨ ((generate_enhanced_tickets 0 0 (expandDistribution CATEGORY_DISTRIBUTION)
          (expandDistribution STATUS_DISTRIBUTION) (expandDistribution PRIORITY_DISTRIBUTION)
          (fun _ => zeroDraws)).createdDocs.getD 0 dummyTicketDoc).status = Status.CLOSED)) := by
  intro h
  have hsome : (((generate_enhanced_tickets 0 0 (expandDistribution CATEGORY_DISTRIBUTION)
      (expandDistribution STATUS_DISTRIBUTION) (expandDistribution PRIORITY_DISTRIBUTION)
      (fun _ => zeroDraws)).createdDocs.getD 0 dummyTicketDoc).created_at.isSome) := rfl
  have hopen : (((generate_enhanced_tickets 0 0 (expandDistribution CATEGORY_DISTRIBUTION)
      (expandDistribution STATUS_DISTRIBUTION) (expandDistribution PRIORITY_DISTRIBUTION)
      (fun _ => zeroDraws)).createdDocs.getD 0 dummyTicketDoc).status = Status.OPEN) := rfl
  rcases h.mp hsome with hc | hc <;> rw [hopen] at hc <;> cases hc

/-- Witness for the amended C7 at the first document of a concrete run. -/
theorem C7_amended_field_presence_witness :
    ((((generate_enhanced_tickets 0 0 [] [] [] (fun _ => zeroDraws)).createdDocs.getD 0
        dummyTicketDoc).resolution.isSome
      ↔ (((generate_enhanced_tickets 0 0 [] [] [] (fun _ => zeroDraws)).createdDocs.getD 0
          dummyTicketDoc).status = Status.RESOLVED
        ∨ ((generate_enhanced_tickets 0 0 [] [] [] (fun _ => zeroDraws)).createdDocs.getD 0
          dummyTicketDoc).status = Status.CLOSED)) ∧
      ((generate_enhanced_tickets 0 0 [] [] [] (fun _ => zeroDraws)).createdDocs.getD 0
        dummyTicketDoc).created_at.isSome ∧
      ((generate_enhanced_tickets 0 0 [] [] [] (fun _ => zeroDraws)).createdDocs.getD 0
        dummyTicketDoc).updated_at.isSome) :=
  C7_amended_field_presence 0 0 [] [] [] (fun _ => zeroDraws) _
    (getD_mem _ 0 dummyTicketDoc (by
      have h50 : (generate_enhanced_tickets 0 0 [] [] []
          (fun _ => zeroDraws)).createdDocs.length = 50 := by
        unfold generate_enhanced_tickets
        rw [if_neg (by omega)]
        rw [genTicketsAux_length]
        simp [TOTAL_TICKETS]
      omega))

/-- C6: the per-title existence check of populate_knowledge_base.py skips an
article whose title already has a stored document (no create call, state
unchanged), and running the whole population twice from an empty collection
stores exactly one document per sample title. -/
theorem C6_per_title_dedup :
    (∀ (now : ℚ) (a : Article) (rest : List Article) (store : List ArticleDoc) (c : Nat),
       (∃ docStored ∈ store, docStored.title = a.title) →
       addArticles now (a :: rest) store c = addArticles now rest store c) ∧
    (∀ (now1 now2 : ℚ) (t : String), t ∈ SAMPLE_ARTICLES.map (·.title) →
       ((populate_knowledge_base now2 (populate_knowledge_base now1 []).store).store.countP
          (fun docStored => docStored.title == t)) = 1) := by
  constructor
  · exact fun now a rest store c h => addArticles_skip now a rest store c h
  · intro now1 now2 t ht
    have h1 : (populate_knowledge_base now1 []).store
        = SAMPLE_ARTICLES.map (mkArticleDoc now1) := rfl
    rw [h1]
    have h2 : populate_knowledge_base now2 (SAMPLE_ARTICLES.map (mkArticleDoc now1))
        = ⟨SAMPLE_ARTICLES.map (mkArticleDoc now1), 0,
           (SAMPLE_ARTICLES.map (mkArticleDoc now1)).length⟩ := by
      unfold populate_knowledge_base
      rw [if_pos (by rw [List.length_map])]
    rw [h2]
    fin_cases ht <;> rfl

/-- Witness for C6: the skip step at a one-document store holding the first
sample title, and the double-run count at that title. -/
theorem C6_per_title_dedup_witness :
    addArticles 0 [⟨"How to Reset Your Windows Password", "Account Management",
        ["password", "reset", "windows", "login", "security"], "IT Support Team"⟩]
        [mkArticleDoc 0 ⟨"How to Reset Your Windows Password", "Account Management",
          ["password", "reset", "windows", "login", "security"], "IT Support Team"⟩] 0
      = addArticles 0 []
          [mkArticleDoc 0 ⟨"How to Reset Your Windows Password", "Account Management",
            ["password", "reset", "windows", "login", "security"], "IT Support Team"⟩] 0 ∧
    ((populate_knowledge_base 0 (populate_knowledge_base 0 []).store).store.countP
        (fun docStored => docStored.title == "How to Reset Your Windows Password")) = 1 :=
  ⟨C6_per_title_dedup.1 0 _ [] _ 0
     ⟨mkArticleDoc 0 ⟨"How to Reset Your Windows Password", "Account Management",
        ["password", "reset", "windows", "login", "security"], "IT Support Team"⟩,
      List.mem_cons_self _ _, rfl⟩,
   C6_per_title_dedup.2 0 0 "How to Reset Your Windows Password" (by decide)⟩

theorem generated_categories_eq (now : ℚ) (catList : List String) (statusList : List Status)
    (priorityList : List Priority) (draws : Nat → Draws) :
    (generate_enhanced_tickets 0 now catList statusList priorityList
        draws).createdDocs.map (·.category)
      = SCENARIO_CATEGORIES
        ++ [catList.getD 47 "Other", catList.getD 48 "Other", catList.getD 49 "Other"] := by
  unfold generate_enhanced_tickets
  rw [if_neg (by omega)]
  show (genTicketsAux now catList statusList priorityList draws
      (List.range TOTAL_TICKETS) AGENTS).map (·.category) = _
  rw [genTicketsAux_map_category]
  rfl

/-- C1 (amended): with existing count 0 the generator issues exactly 50 create
calls for every seed, but the tally of the created documents' `category`
fields does not reproduce the configured distribution: the first 47 documents
take their category from the scenario list (Software 11, Hardware 11,
Network 8, Email 8, Access 6, Other 3) and only positions 47-49 of the
shuffled category list are consulted, so for every seed "Access" appears at
least 6 times instead of the configured 3. -/
theorem C1_amended_category_tally (now : ℚ) (catList : List String) (statusList : List Status)
    (priorityList : List Priority) (draws : Nat → Draws) :
    (generate_enhanced_tickets 0 now catList statusList priorityList
        draws).createdDocs.length = 50 ∧
    (generate_enhanced_tickets 0 now catList statusList priorityList
        draws).createdDocs.map (·.category)
      = SCENARIO_CATEGORIES
        ++ [catList.getD 47 "Other", catList.getD 48 "Other", catList.getD 49 "Other"] ∧
    6 ≤ ((generate_enhanced_tickets 0 now catList statusList priorityList
        draws).createdDocs.map (·.category)).count "Access" := by
  refine ⟨?_, generated_categories_eq now catList statusList priorityList draws, ?_⟩
  · unfold generate_enhanced_tickets
    rw [if_neg (by omega)]
    show (genTicketsAux now catList statusList priorityList draws
        (List.range TOTAL_TICKETS) AGENTS).length = 50
    rw [genTicketsAux_length]
    simp [TOTAL_TICKETS]
  · rw [generated_categories_eq now catList statusList priorityList draws]
    rw [List.count_append]
    have h6 : SCENARIO_CATEGORIES.count "Access" = 6 := by decide
    omega

/-- Counterexample to C1 as stated: at the seed outcome that leaves the three
distribution lists in their unshuffled order (a legitimate shuffle result),
the 50 created documents contain the category "Access" 7 times, not the
configured 3 — the per-category tally is not reproduced. -/
theorem C1_counterexample :
    ((generate_enhanced_tickets 0 0 (expandDistribution CATEGORY_DISTRIBUTION)
        (expandDistribution STATUS_DISTRIBUTION) (expandDistribution PRIORITY_DISTRIBUTION)
        (fun _ => zeroDraws)).createdDocs.map (·.category)).count "Access" = 7 ∧
    ((generate_enhanced_tickets 0 0 (expandDistribution CATEGORY_DISTRIBUTION)
        (expandDistribution STATUS_DISTRIBUTION) (expandDistribution PRIORITY_DISTRIBUTION)
        (fun _ => zeroDraws)).createdDocs.map (·.category)).count "Access" ≠ 3 := by
  constructor
  · rw [generated_categories_eq]
    decide
  · rw [generated_categories_eq]
    decide
